import Mathlib

/-!
Shallow embedding of `app.py` (cold-Mail), a cold-email generation assistant.

Conventions of the embedding:
* Python strings are Lean `String`s; apostrophes and braces inside literals
  are written with `\x27`, `\x7b`, `\x7d` escapes.
* Python dicts used as keyword-argument field sets become `FieldSet`,
  a function `String → Option String`.
* Exceptions become `Except PyErr`; a Python function that can raise returns
  `Except PyErr α`, and `try/except` blocks are explicit `match`es.
* External collaborators (the Groq completion endpoint, `requests.get` +
  BeautifulSoup, the Resend API) are oracle parameters; each outgoing
  network call is additionally recorded as an `Event` in a `Trace`, in the
  order the Python code performs the calls.
* Python helper operations (`str.split`, `str.format`, negative indexing,
  slicing, `str.find`, `str.join`) are embedded by the `py*` functions
  below, written structurally recursively so that the kernel can evaluate
  them on concrete inputs.
-/

/-- Python exceptions raised by the code under study. -/
inductive PyErr where
  | keyError (key : String)
  | valueError (msg : String)
  | indexError
deriving DecidableEq

/-- Observable external calls, recorded in program order. -/
inductive Event where
  | fetch (url : String)
  | llmCall (prompt : String)
  | sheetsAppend (row : List String)
deriving DecidableEq

abbrev Trace := List Event

/-- A Python `**kwargs` dict of string fields. -/
abbrev FieldSet := String → Option String

/-- Python `d.get(k, default)`. -/
def pyGet (m : FieldSet) (k default : String) : String :=
  match m k with
  | some v => v
  | none => default

/-- Python `d.update(pairs)` / `{**d, **pairs}`: later keys override. -/
def pyUpdate (m : FieldSet) (pairs : List (String × String)) : FieldSet :=
  fun k =>
    match pairs.lookup k with
    | some v => some v
    | none => m k

/-- Python `str(x)` on an optional string (`None` prints as `"None"`). -/
def pyStr : Option String → String
  | none => "None"
  | some s => s

/-- Python `sep.join(parts)`. -/
def pyJoin (sep : String) : List String → String
  | [] => ""
  | [x] => x
  | x :: y :: rest => x ++ sep ++ pyJoin sep (y :: rest)

/-- Python `s[:n]` on a string: the first `n` characters. -/
def pyTake (s : String) (n : Nat) : String :=
  String.mk (s.data.take n)

/-- Python `xs[-k]` (negative indexing): `none` models an `IndexError`. -/
def pyNegIdx (xs : List α) (k : Nat) : Option α :=
  if 1 ≤ k ∧ k ≤ xs.length then xs[xs.length - k]? else none

/-- Character-level worker for Python `str.split(sep)`: scans left to right,
cutting at each non-overlapping occurrence of `sep`.  The first argument is
fuel; it is called with more fuel than the length of the scanned list, so the
fuel-exhausted branch is never reached. -/
def splitChAux (sep : List Char) : Nat → List Char → List Char → List (List Char)
  | 0, s, acc => [acc.reverse ++ s]
  | _ + 1, [], acc => [acc.reverse]
  | fuel + 1, c :: rest, acc =>
    if sep.isPrefixOf (c :: rest) then
      acc.reverse :: splitChAux sep fuel (List.drop sep.length (c :: rest)) []
    else
      splitChAux sep fuel rest (c :: acc)

/-- Python `s.split(sep)` for a non-empty separator. -/
def pySplit (s sep : String) : List String :=
  (splitChAux sep.data (s.data.length + 1) s.data []).map String.mk

/-- Worker for Python `s.find(sub)`: index of the first occurrence. -/
def findSubAux (sub : List Char) : List Char → Option Nat
  | [] => if sub = [] then some 0 else none
  | c :: rest =>
    if sub.isPrefixOf (c :: rest) then some 0
    else (findSubAux sub rest).map (· + 1)

/-- Python `s.find(sub)`: first index of `sub` in `s`, `-1` if absent. -/
def pyFind (s sub : String) : Int :=
  match findSubAux sub.data s.data with
  | some i => (i : Int)
  | none => -1

/-- Clamp a Python slice endpoint to `[0, n]` (negative indices count from
the end). -/
def sliceIdx (n : Nat) (i : Int) : Nat :=
  (if i < 0 then i + n else i).toNat.min n

/-- Python `s[a:b]` with integer endpoints. -/
def pySlice (s : String) (a b : Int) : String :=
  let n := s.data.length
  String.mk ((s.data.drop (sliceIdx n a)).take (sliceIdx n b - sliceIdx n a))

/-- The string `small` occurs contiguously inside `big`. -/
def ContainsStr (big small : String) : Prop :=
  ∃ a b : List Char, big.data = a ++ small.data ++ b

/-- One piece of a Python format string: literal text or a `{name}`
placeholder. -/
inductive Chunk where
  | lit (s : String)
  | ph (name : String)
deriving DecidableEq

/-- The placeholder names of a format string, in order of appearance. -/
def phNames : List Chunk → List String
  | [] => []
  | .lit _ :: rest => phNames rest
  | .ph n :: rest => n :: phNames rest

/-- Python `template.format(**kwargs)`: substitutes placeholders left to
right and raises `KeyError(name)` at the first placeholder missing from the
field set. -/
def formatChunks (fields : FieldSet) : List Chunk → Except PyErr String
  | [] => .ok ""
  | .lit s :: rest => (formatChunks fields rest).map (fun t => s ++ t)
  | .ph n :: rest =>
    match fields n with
    | none => .error (.keyError n)
    | some v => (formatChunks fields rest).map (fun t => v ++ t)

/-- `class EmailTemplate` from `app.py`; the `template` format string is
represented as its list of literal/placeholder chunks. -/
structure EmailTemplate where
  name : String
  template : List Chunk
  required_fields : List String
deriving DecidableEq

/-- The `"job_application"` template registered in
`EmailTemplateEngine.__init__`, chunked at its placeholders. -/
def job_application_template : EmailTemplate where
  name := "Job Application"
  template := [
    .lit "\n                Dear ",
    .ph "hiring_manager_name",
    .lit ",\n\n                I am writing to express my strong interest in the ",
    .ph "job_title",
    .lit " position at ",
    .ph "company_name",
    .lit ". With my background in ",
    .ph "relevant_skills",
    .lit ", I believe I would be a valuable asset to your team.\n\n                ",
    .ph "experience_summary",
    .lit "\n\n                Some of my key achievements include:\n                ",
    .ph "key_achievements",
    .lit "\n\n                I am particularly drawn to ",
    .ph "company_name",
    .lit " because ",
    .ph "reason_for_interest",
    .lit ". I am excited about the opportunity to bring my skills and passion to your team.\n\n                Thank you for considering my application. I look forward to the opportunity to discuss how I can contribute to ",
    .ph "company_name",
    .lit "\x27s success.\n\n                Best regards,\n                ",
    .ph "applicant_name",
    .lit "\n                "]
  required_fields := ["hiring_manager_name", "job_title", "company_name",
    "relevant_skills", "experience_summary", "key_achievements",
    "reason_for_interest", "applicant_name"]

/-- The `"sales_pitch"` template registered in
`EmailTemplateEngine.__init__`, chunked at its placeholders. -/
def sales_pitch_template : EmailTemplate where
  name := "Sales Pitch"
  template := [
    .lit "\n                Dear ",
    .ph "recipient_name",
    .lit ",\n\n                I hope this email finds you well. I\x27m reaching out because ",
    .ph "reason_for_contact",
    .lit ". Our product, ",
    .ph "product_name",
    .lit ", can help you ",
    .ph "main_benefit",
    .lit ".\n\n                Some key features of ",
    .ph "product_name",
    .lit " include:\n                ",
    .ph "key_features",
    .lit "\n\n                Our customers have seen remarkable results, such as:\n                ",
    .ph "customer_results",
    .lit "\n\n                I\x27d love to schedule a call to discuss how ",
    .ph "product_name",
    .lit " can specifically benefit ",
    .ph "company_name",
    .lit ". Are you available for a quick 15-minute chat this week?\n\n                Looking forward to the opportunity to help ",
    .ph "company_name",
    .lit " achieve its goals.\n\n                Best regards,\n                ",
    .ph "sender_name",
    .lit "\n                ",
    .ph "sender_position",
    .lit "\n                ",
    .ph "sender_company",
    .lit "\n                "]
  required_fields := ["recipient_name", "reason_for_contact", "product_name",
    "main_benefit", "key_features", "customer_results", "company_name",
    "sender_name", "sender_position", "sender_company"]

/-- `EmailTemplateEngine.templates`: the registry dict. -/
def templates (template_name : String) : Option EmailTemplate :=
  if template_name = "job_application" then some job_application_template
  else if template_name = "sales_pitch" then some sales_pitch_template
  else none

/-- `EmailTemplateEngine.get_template_names`. -/
def get_template_names : List String :=
  ["job_application", "sales_pitch"]

/-- `EmailTemplateEngine.get_template` (`dict.get`, `None` if unknown). -/
def get_template (template_name : String) : Option EmailTemplate :=
  templates template_name

/-- `EmailTemplateEngine.get_required_fields` (empty list if unknown). -/
def get_required_fields (template_name : String) : List String :=
  match get_template template_name with
  | some t => t.required_fields
  | none => []

/-- `EmailTemplateEngine.customize_template`: looks the template up
(`ValueError` if unknown), substitutes the field set into the format string
(`KeyError` at the first missing placeholder), then makes one completion
call with the substituted prompt and returns the completion text.  `llm` is
the completion oracle; the returned trace records the call. -/
def customize_template (llm : String → String) (template_name : String)
    (kwargs : FieldSet) : Trace × Except PyErr String :=
  match get_template template_name with
  | none =>
    ([], .error (.valueError ("Template \x27" ++ template_name ++ "\x27 not found")))
  | some t =>
    match formatChunks kwargs t.template with
    | .error e => ([], .error e)
    | .ok prompt => ([Event.llmCall prompt], .ok (llm prompt))

/-- The result of `requests.get` + BeautifulSoup parsing of one page:
the text of each `<p>` element (`p.get_text()` for `soup.find_all('p')`)
and the whole-document visible text (`soup.get_text()`). -/
structure Page where
  paragraphs : List String
  full_text : String

/-- The `try` block of `scrape_website`: fetch and parse (the oracle `http`
may fail, modelling an exception whose `str` is the payload), join the
paragraph texts with spaces, fall back to the whole-document text when that
is shorter than 1000 characters, and truncate to 5000 characters. -/
def scrape_attempt (http : String → Except String Page) (url : String) :
    Except String String := do
  let page ← http url
  let text := pyJoin " " page.paragraphs
  let text := if text.length < 1000 then page.full_text else text
  return pyTake text 5000

/-- `scrape_website`: the `try` block above with `except Exception as e:
return f"Error scraping website: {str(e)}"`. -/
def scrape_website (http : String → Except String Page) (url : String) : String :=
  match scrape_attempt http url with
  | .ok text => text
  | .error e => "Error scraping website: " ++ e

/-- The `analysis_prompt` f-string built in `generate_cold_email` for the
`"job_application"` path. -/
def analysis_prompt (website_context skills : String) : String :=
  "\n        Based on the following job description and website content:\n        "
  ++ website_context
  ++ "\n\n        1. Extract 3-5 key required skills for this position.\n        2. Identify 2-3 of the applicant\x27s skills that best match the required skills.\n        3. Provide 3 specific, detailed examples of how the applicant\x27s skills can be used to help the organization grow or improve.\n        4. Suggest 2 improvements for character development or storylines, using specific examples from the website content. These suggestions should demonstrate how the applicant\x27s skills can be applied to make the characters or narratives more fascinating.\n\n        Applicant\x27s Skills: "
  ++ skills
  ++ "\n\n        Format the response as:\n        Required Skills: skill1, skill2, skill3, ...\n\n        Matching Skills: skill1, skill2, skill3\n\n        Growth Ideas:\n        1. [Detailed example 1]\n        2. [Detailed example 2]\n        3. [Detailed example 3]\n\n        Character/Storyline Improvement Suggestions:\n        1. [Detailed suggestion 1, incorporating applicant\x27s skills and website content]\n        2. [Detailed suggestion 2, incorporating applicant\x27s skills and website content]\n        "

/-- `analysis_result.split("\n\n")`: the blank-line-separated sections of
the analysis response. -/
def analysisSections (analysis_result : String) : List String :=
  pySplit analysis_result "\n\n"

/-- The `key_achievements` value built in `generate_cold_email`:
`"- " + "\n- ".join(analysis_result.split("\n\n")[2].split("\n")[1:])`.
`none` models the `IndexError` raised by `[2]` when the response has fewer
than three sections. -/
def keyAchievements (analysis_result : String) : Option String :=
  match (analysisSections analysis_result)[2]? with
  | none => none
  | some sec => some ("- " ++ pyJoin "\n- " ((pySplit sec "\n").drop 1))

/-- `generate_cold_email`.  On the `"job_application"` path it first scrapes
the job URL, makes the analysis completion call, heuristically splits the
response (the `[2]` and `[-1]` indexings can raise `IndexError`), merges the
three derived fields into the kwargs, and only then substitutes the
template via `customize_template`.  Every other template name goes straight
to `customize_template`.  The trace records the `requests.get` performed
inside `scrape_website` and each completion call, in program order. -/
def generate_cold_email (llm : String → String)
    (http : String → Except String Page) (template_name : String)
    (kwargs : FieldSet) : Trace × Except PyErr String :=
  if template_name = "job_application" then
    let skills := pyGet kwargs "relevant_skills" ""
    let job_url := pyGet kwargs "job_url" ""
    let website_context := scrape_website http job_url
    let ap := analysis_prompt website_context skills
    let analysis_result := llm ap
    let pre : Trace := [Event.fetch job_url, Event.llmCall ap]
    match keyAchievements analysis_result with
    | none => (pre, .error .indexError)
    | some ka =>
      match pyNegIdx (analysisSections analysis_result) 1 with
      | none => (pre, .error .indexError)
      | some reason =>
        let kwargs2 := pyUpdate kwargs
          [("experience_summary", analysis_result),
           ("key_achievements", ka),
           ("reason_for_interest", reason)]
        let r := customize_template llm template_name kwargs2
        (pre ++ r.1, r.2)
  else
    customize_template llm template_name kwargs

/-- The literal head of the `create_html_email` f-string, up to the
`{content}` placeholder (CSS braces written as `\x7b`/`\x7d`). -/
def html_head : String :=
  "\n    <!DOCTYPE html>\n    <html lang=\"en\">\n    <head>\n        <meta charset=\"UTF-8\">\n        <meta name=\"viewport\" content=\"width=device-width, initial-scale=1.0\">\n        <title>Professional Email</title>\n        <style>\n            body \x7b\n                font-family: Arial, sans-serif;\n                line-height: 1.6;\n                color: #333;\n                max-width: 600px;\n                margin: 0 auto;\n                padding: 20px;\n            \x7d\n            .header \x7b\n                border-bottom: 2px solid #0066cc;\n                padding-bottom: 10px;\n                margin-bottom: 20px;\n            \x7d\n            .footer \x7b\n                border-top: 1px solid #ddd;\n                padding-top: 10px;\n                margin-top: 20px;\n                font-size: 0.9em;\n                color: #666;\n            \x7d\n            .content \x7b\n                white-space: pre-wrap;\n                font-family: Arial, sans-serif;\n                line-height: 1.6;\n            \x7d\n        </style>\n    </head>\n    <body>\n        <div class=\"header\">\n            <h2>Professional Communication</h2>\n        </div>\n        <div class=\"content\">\n"

/-- The literal segment of the `create_html_email` f-string between
`{content}` and the footer paragraph. -/
def html_mid : String :=
  "\n        </div>\n        <div class=\"footer\">\n            "

/-- The literal tail of the `create_html_email` f-string after the footer
paragraph. -/
def html_tail : String :=
  "\n        </div>\n    </body>\n    </html>\n    "

/-- `create_html_email`: the fixed HTML wrapper with the content in the
body and the sender name and address in the footer paragraph
`<p>Best regards,<br>{sender_name}<br>{sender_email}</p>`. -/
def create_html_email (content sender_name sender_email : String) : String :=
  html_head ++ content ++ html_mid ++ "<p>Best regards,<br>" ++ sender_name
    ++ "<br>" ++ sender_email ++ "</p>" ++ html_tail

/-- The dict passed to `resend.Emails.send` in `send_email` (`from` and
`to` are Lean keywords, so the fields are `from_` and `to_`). -/
structure ResendPayload where
  from_ : String
  to_ : String
  subject : String
  html : String
  reply_to : String
deriving DecidableEq

/-- The acknowledgment returned by `resend.Emails.send`. -/
structure SendResp where
  id : String

/-- The delivery request `send_email` hands to the Resend API: display name
plus the fixed `onboarding@resend.dev` address as sender, the caller
address only as reply-to (and inside the rendered HTML footer). -/
def send_payload (from_name from_email to_email subject content : String) :
    ResendPayload where
  from_ := from_name ++ " <onboarding@resend.dev>"
  to_ := to_email
  subject := subject
  html := create_html_email content from_name from_email
  reply_to := from_email

/-- `send_email`: builds the HTML body and the payload and calls the
delivery oracle inside `try`; any delivery exception is caught and turned
into the return value `False`, success returns `True`.  The function itself
never raises, hence the always-`ok` result type. -/
def send_email (api : ResendPayload → Except String SendResp)
    (from_name from_email to_email subject content : String) :
    Except PyErr Bool :=
  match api (send_payload from_name from_email to_email subject content) with
  | .ok _ => .ok true
  | .error _ => .ok false

/-- One chatbot entry `[user_message, bot_message]`: the optional edit
request (`None` for the initial generation turn) and the stored bot
message. -/
abbrev ChatTurn := Option String × String

/-- The transcript line `f"Human: {h[0]}\nAI: {h[1]}"` for one turn. -/
def turn_line (h : ChatTurn) : String :=
  "Human: " ++ pyStr h.1 ++ "\nAI: " ++ h.2

/-- The `full_context` built in `chat_function`:
`"\n".join(f"Human: {h[0]}\nAI: {h[1]}" for h in history)`. -/
def full_context (history : List ChatTurn) : String :=
  pyJoin "\n" (history.map turn_line)

/-- Literal segment of the `edit_prompt` f-string before `{latest_email}`. -/
def edit_prompt_seg1 : String :=
  "\n        Original Email (or Latest Version):\n        "

/-- Literal segment of the `edit_prompt` f-string between `{latest_email}`
and `{full_context}`. -/
def edit_prompt_seg2 : String :=
  "\n\n        Edit History:\n        "

/-- Literal segment of the `edit_prompt` f-string between `{full_context}`
and `{message}`. -/
def edit_prompt_seg3 : String :=
  "\n\n        User\x27s Latest Edit Request:\n        "

/-- Literal segment of the `edit_prompt` f-string after `{message}`. -/
def edit_prompt_seg4 : String :=
  "\n\n        Please provide an updated version of the email incorporating the user\x27s edit request. \n        Maintain the overall structure and key points of the original email while making the requested changes.\n        Consider all previous edits and requests when making this update.\n        "

/-- The `edit_prompt` f-string built in `chat_function`. -/
def edit_prompt (latest_email full_ctx message : String) : String :=
  edit_prompt_seg1 ++ latest_email ++ edit_prompt_seg2 ++ full_ctx
    ++ edit_prompt_seg3 ++ message ++ edit_prompt_seg4

/-- The wrapper that `chat_function` puts around the edited email coming
back from the model, before storing it as the bot message. -/
def edited_reply (edited_email : String) : String :=
  "Here\x27s the updated version of your email based on your request:\n\n"
  ++ edited_email
  ++ "\n\nYou can continue to edit this email by sending more edit requests."

/-- The fixed instruction `chat_function` returns for an empty history. -/
def please_generate_msg : String :=
  "Please use the \x27Generate Email\x27 button to create your initial email."

/-- `chat_function(message, history)`: on an empty history returns the
fixed instruction without touching the model; otherwise extracts
`history[0][1].split("\n\n")[-2]` (an `IndexError` if that first stored
message has fewer than two sections), builds the edit prompt from it, the
full transcript and the new message, makes one completion call (with the
fixed refine-an-email system message), and returns the wrapped edited
email.  The trace records the completion call. -/
def chat_function (llm : String → String) (message : String)
    (history : List ChatTurn) : Trace × Except PyErr String :=
  match history with
  | [] => ([], .ok please_generate_msg)
  | h0 :: _ =>
    match pyNegIdx (pySplit h0.2 "\n\n") 2 with
    | none => ([], .error .indexError)
    | some latest_email =>
      let p := edit_prompt latest_email (full_context history) message
      ([Event.llmCall p], .ok (edited_reply (llm p)))

/-- One round of the `msg.submit(user, ...).then(bot, ...)` chain: `user`
appends `[user_message, None]` to the history, `bot` computes
`chat_function(history[-1][0], history[:-1])` and stores the reply in the
pending slot.  The composite appends one completed turn when
`chat_function` returns; its exception propagates otherwise. -/
def editStep (llm : String → String) (history : List ChatTurn)
    (message : String) : Trace × Except PyErr (List ChatTurn) :=
  match chat_function llm message history with
  | (tr, .ok reply) => (tr, .ok (history ++ [(some message, reply)]))
  | (tr, .error e) => (tr, .error e)

/-- `editStep` iterated over a list of edit requests, stopping at the first
exception (the traces are not needed by the session-shape claims and are
dropped). -/
def editMany (llm : String → String) (history : List ChatTurn) :
    List String → Except PyErr (List ChatTurn)
  | [] => .ok history
  | m :: ms =>
    match (editStep llm history m).2 with
    | .error e => .error e
    | .ok h2 => editMany llm h2 ms

/-- The bot message `generate_email_action` stores for a successful
generation. -/
def initial_bot_message (generated_email : String) : String :=
  "Here\x27s your generated email:\n\n"
  ++ generated_email
  ++ "\n\nYou can now edit this email by sending your edit requests."

/-- Python `str(e)` for the exceptions of this embedding
(`str(KeyError(k))` is the repr of the key). -/
def pyStrErr : PyErr → String
  | .keyError k => "\x27" ++ k ++ "\x27"
  | .valueError m => m
  | .indexError => "list index out of range"

/-- The fields dict built in `generate_email_action`:
`{"sender_name": name, "sender_email": email, "relevant_skills": skills,
"job_url": url, **dynamic_inputs}` (the dynamic inputs override). -/
def action_fields (name email skills url : String)
    (dynamic_inputs : List (String × String)) : FieldSet :=
  pyUpdate (fun k =>
    if k = "sender_name" then some name
    else if k = "sender_email" then some email
    else if k = "relevant_skills" then some skills
    else if k = "job_url" then some url
    else none) dynamic_inputs

/-- `generate_email_action`: generates the email inside `try`, appends the
submission row to the spreadsheet on success, and returns the fresh
one-turn chatbot history; any exception becomes an error chat message. -/
def generate_email_action (llm : String → String)
    (http : String → Except String Page) (template_name name email skills
    url : String) (dynamic_inputs : List (String × String)) :
    Trace × List ChatTurn :=
  let fields := action_fields name email skills url dynamic_inputs
  match generate_cold_email llm http template_name fields with
  | (tr, .ok generated_email) =>
    (tr ++ [Event.sheetsAppend [name, email, template_name, skills, url]],
      [(none, initial_bot_message generated_email)])
  | (tr, .error e) =>
    (tr, [(none, "Error generating email: " ++ pyStrErr e)])

/-- `send_email_action`: guards on an empty chat and a missing recipient,
extracts the latest email content from the last chatbot message by the
`find`/slice/strip heuristic, and calls `send_email` with the fixed
subject, mapping its boolean to a status message. -/
def send_email_action (api : ResendPayload → Except String SendResp)
    (name email recipient : String) (chatbot : List ChatTurn) :
    Except PyErr String :=
  if h : chatbot = [] then .ok "Please generate an email first."
  else if recipient = "" then .ok "Please enter the recipient\x27s email address."
  else
    let latest_email_message := (chatbot.getLast h).2
    let email_content_start :=
      pyFind latest_email_message "Here\x27s your generated email:" + 28
    let e0 := pyFind latest_email_message "\n\nYou can now edit this email"
    let email_content_end : Int :=
      if e0 = -1 then (latest_email_message.length : Int) else e0
    let email_content :=
      (pySlice latest_email_message email_content_start email_content_end).trim
    match send_email api name email recipient "Professional Communication"
        email_content with
    | .error e => .error e
    | .ok true => .ok "Email sent successfully!"
    | .ok false => .ok "Failed to send email. Please try again."

/-- The `send_button.click(send_email_action, inputs=[...],
outputs=gr.Textbox())` wiring: the chatbot state is not among the outputs,
so the session component is returned unchanged next to the status
message. -/
def send_button_click (api : ResendPayload → Except String SendResp)
    (name email recipient : String) (chatbot : List ChatTurn) :
    Except PyErr String × List ChatTurn :=
  (send_email_action api name email recipient chatbot, chatbot)

/-! ## Helper lemmas -/

theorem containsStr_trans {b m s : String} (hbm : ContainsStr b m)
    (hms : ContainsStr m s) : ContainsStr b s := by
  obtain ⟨a1, b1, h1⟩ := hbm
  obtain ⟨a2, b2, h2⟩ := hms
  exact ⟨a1 ++ a2, b2 ++ b1, by simp [h1, h2]⟩

theorem containsStr_pyJoin (sep : String) : ∀ (l : List String), ∀ x ∈ l,
    ContainsStr (pyJoin sep l) x := by
  intro l
  induction l with
  | nil => intro x hx; exact absurd hx (List.not_mem_nil x)
  | cons y rest ih =>
    intro x hx
    match rest, hx with
    | [], hx =>
      have : x = y := by simpa using hx
      subst this
      exact ⟨[], [], by simp [pyJoin]⟩
    | z :: rest2, hx =>
      rcases List.mem_cons.mp hx with h | h
      · subst h
        exact ⟨[], sep.data ++ (pyJoin sep (z :: rest2)).data,
          by simp [pyJoin, String.data_append]⟩
      · obtain ⟨a, b, hab⟩ := ih x h
        exact ⟨y.data ++ sep.data ++ a, b,
          by simp [pyJoin, String.data_append, hab]⟩

theorem formatChunks_missing : ∀ (cs : List Chunk) (fields : FieldSet),
    (∃ n, n ∈ phNames cs ∧ fields n = none) →
    ∃ m, formatChunks fields cs = .error (.keyError m) ∧ fields m = none ∧
      m ∈ phNames cs := by
  intro cs
  induction cs with
  | nil =>
    intro fields ⟨n, hn, _⟩
    exact absurd hn (by simp [phNames])
  | cons c rest ih =>
    intro fields ⟨n, hn, hnone⟩
    cases c with
    | lit s =>
      simp only [phNames] at hn
      obtain ⟨m, hm, h1, h2⟩ := ih fields ⟨n, hn, hnone⟩
      exact ⟨m, by simp [formatChunks, hm, Except.map], h1,
        by simpa [phNames] using h2⟩
    | ph p =>
      cases hp : fields p with
      | none =>
        exact ⟨p, by simp [formatChunks, hp], hp, by simp [phNames]⟩
      | some v =>
        have hn2 : n ∈ phNames rest := by
          simp only [phNames, List.mem_cons] at hn
          rcases hn with h | h
          · subst h; rw [hp] at hnone; exact absurd hnone (by simp)
          · exact h
        obtain ⟨m, hm, h1, h2⟩ := ih fields ⟨n, hn2, hnone⟩
        exact ⟨m, by simp [formatChunks, hp, hm, Except.map], h1,
          by simp [phNames, h2]⟩

/-! ## C1: missing required fields -/

/-- C1 (counterexample): composing `"job_application"` with the empty field
mapping — which omits both `hiring_manager_name` and `job_title`, among
others — fails with a `KeyError` naming only `hiring_manager_name`; the
error does not list every missing required field, so the claim that a
`MissingFieldError` names every missing field is false of the code. -/
theorem C1_counterexample :
    customize_template (fun _ => "") "job_application" (fun _ => none)
      = ([], .error (.keyError "hiring_manager_name"))
    ∧ "job_title" ∈ get_required_fields "job_application"
    ∧ (fun _ => (none : Option String)) "job_title" = none
    ∧ "hiring_manager_name" ≠ "job_title" := by
  refine ⟨rfl, by decide, rfl, by decide⟩

/-- Shared helper: composing a registered template with a field mapping
missing at least one required field fails with a `KeyError` naming a single
missing required field, before the model call. -/
theorem customize_template_missing (template_name : String)
    (t : EmailTemplate) (ht : get_template template_name = some t)
    (fields : FieldSet) (hmiss : ∃ r ∈ t.required_fields, fields r = none)
    (llm : String → String) :
    ∃ n, customize_template llm template_name fields
        = ([], .error (.keyError n))
      ∧ fields n = none ∧ n ∈ t.required_fields := by
  obtain ⟨r, hrmem, hrnone⟩ := hmiss
  have hcases : t = job_application_template ∨ t = sales_pitch_template := by
    by_cases h1 : template_name = "job_application"
    · left
      rw [get_template, templates, if_pos h1] at ht
      exact (Option.some_injective _ ht).symm
    · by_cases h2 : template_name = "sales_pitch"
      · right
        rw [get_template, templates, if_neg h1, if_pos h2] at ht
        exact (Option.some_injective _ ht).symm
      · rw [get_template, templates, if_neg h1, if_neg h2] at ht
        exact absurd ht (by simp)
  have hsub : ∀ n ∈ t.required_fields, n ∈ phNames t.template := by
    rcases hcases with h | h <;> subst h <;> decide
  have hsub2 : ∀ n ∈ phNames t.template, n ∈ t.required_fields := by
    rcases hcases with h | h <;> subst h <;> decide
  obtain ⟨m, hfmt, hmnone, hmmem⟩ :=
    formatChunks_missing t.template fields ⟨r, hsub r hrmem, hrnone⟩
  exact ⟨m, by simp only [customize_template, ht, hfmt], hmnone, hsub2 m hmmem⟩

/-- C1 (amended): for every template known to the registry and every field
mapping omitting at least one required field, composing fails before any
model call with a `KeyError` naming a single missing placeholder (the first
one in template order) — one missing required field, not the whole list. -/
theorem C1_first_missing_only (template_name : String) (t : EmailTemplate)
    (ht : get_template template_name = some t) (fields : FieldSet)
    (hmiss : ∃ r ∈ t.required_fields, fields r = none)
    (llm : String → String) :
    ∃ n, customize_template llm template_name fields
        = ([], .error (.keyError n))
      ∧ fields n = none ∧ n ∈ t.required_fields :=
  customize_template_missing template_name t ht fields hmiss llm

/-- C1 (witness): the amended theorem applied to the concrete registry
entry `"job_application"` and the empty field mapping. -/
theorem C1_witness :
    ∃ n, customize_template (fun _ => "") "job_application" (fun _ => none)
        = ([], .error (.keyError n))
      ∧ (fun _ => (none : Option String)) n = none
      ∧ n ∈ job_application_template.required_fields :=
  C1_first_missing_only "job_application" job_application_template rfl
    (fun _ => none) ⟨"hiring_manager_name", by decide, rfl⟩ (fun _ => "")

/-! ## C2: content of the edit prompt -/

theorem edit_prompt_contains_latest (le fc msg : String) :
    ContainsStr (edit_prompt le fc msg) le :=
  ⟨edit_prompt_seg1.data,
    edit_prompt_seg2.data ++ fc.data ++ edit_prompt_seg3.data ++ msg.data
      ++ edit_prompt_seg4.data,
    by simp [edit_prompt, String.data_append]⟩

theorem edit_prompt_contains_ctx (le fc msg : String) :
    ContainsStr (edit_prompt le fc msg) fc :=
  ⟨edit_prompt_seg1.data ++ le.data ++ edit_prompt_seg2.data,
    edit_prompt_seg3.data ++ msg.data ++ edit_prompt_seg4.data,
    by simp [edit_prompt, String.data_append]⟩

theorem edit_prompt_contains_msg (le fc msg : String) :
    ContainsStr (edit_prompt le fc msg) msg :=
  ⟨edit_prompt_seg1.data ++ le.data ++ edit_prompt_seg2.data ++ fc.data
      ++ edit_prompt_seg3.data,
    edit_prompt_seg4.data,
    by simp [edit_prompt, String.data_append]⟩

theorem full_context_contains_turn {history : List ChatTurn} {t : ChatTurn}
    (ht : t ∈ history) :
    ContainsStr (full_context history) (turn_line t) :=
  containsStr_pyJoin "\n" (history.map turn_line) (turn_line t)
    (List.mem_map_of_mem turn_line ht)

theorem turn_line_contains_draft (t : ChatTurn) :
    ContainsStr (turn_line t) t.2 :=
  ⟨("Human: " ++ pyStr t.1 ++ "\nAI: ").data, [],
    by simp [turn_line, String.data_append]⟩

/-- C2: for every edit session with at least one turn (and a first stored
message with at least two blank-line-separated sections, so that the
`[-2]` extraction succeeds) and every new edit request, the edit prompt
sent to the model contains the stored draft of the most recent turn, the
full in-order transcript line of every prior (request, draft) pair, and the
new request text; and the single completion call of `chat_function` is made
with exactly that prompt. -/
theorem C2_edit_prompt_contents (llm : String → String) (message : String)
    (h0 : ChatTurn) (rest : List ChatTurn) (latest_email : String)
    (hle : pyNegIdx (pySplit h0.2 "\n\n") 2 = some latest_email) :
    chat_function llm message (h0 :: rest)
      = ([Event.llmCall
            (edit_prompt latest_email (full_context (h0 :: rest)) message)],
         .ok (edited_reply (llm
            (edit_prompt latest_email (full_context (h0 :: rest)) message))))
    ∧ ContainsStr
        (edit_prompt latest_email (full_context (h0 :: rest)) message)
        (((h0 :: rest).getLast (List.cons_ne_nil h0 rest)).2)
    ∧ ContainsStr
        (edit_prompt latest_email (full_context (h0 :: rest)) message)
        (full_context (h0 :: rest))
    ∧ ContainsStr
        (edit_prompt latest_email (full_context (h0 :: rest)) message)
        message
    ∧ ∀ t ∈ h0 :: rest,
        ContainsStr
          (edit_prompt latest_email (full_context (h0 :: rest)) message)
          (turn_line t) := by
  refine ⟨by simp [chat_function, hle], ?_, ?_, ?_, ?_⟩
  · exact containsStr_trans
      (containsStr_trans (edit_prompt_contains_ctx _ _ _)
        (full_context_contains_turn (List.getLast_mem (List.cons_ne_nil h0 rest))))
      (turn_line_contains_draft _)
  · exact edit_prompt_contains_ctx _ _ _
  · exact edit_prompt_contains_msg _ _ _
  · intro t ht
    exact containsStr_trans (edit_prompt_contains_ctx _ _ _)
      (full_context_contains_turn ht)

/-- C2 (witness): the theorem applied to the one-turn session whose initial
stored message is `"A\n\nB"` and the request `"m"`: the prompt contains
that latest stored draft and the request. -/
theorem C2_witness :
    pyNegIdx (pySplit "A\n\nB" "\n\n") 2 = some "A"
    ∧ ContainsStr
        (edit_prompt "A" (full_context [((none : Option String), "A\n\nB")]) "m")
        "A\n\nB"
    ∧ ContainsStr
        (edit_prompt "A" (full_context [((none : Option String), "A\n\nB")]) "m")
        "m" := by
  have h : pyNegIdx (pySplit "A\n\nB" "\n\n") 2 = some "A" := by decide
  have c := C2_edit_prompt_contents (fun _ => "X") "m" (none, "A\n\nB") [] "A" h
  exact ⟨h, c.2.1, c.2.2.2.1⟩

/-! ## C3: fail-fast before network calls -/

/-- C3 (counterexample): a `"job_application"` generation run with a field
mapping missing required fields (here: all of them) performs the webpage
fetch and the analysis completion call first and only then fails the
required-field validation with a `KeyError`, so the validation failure is
not raised before every network call. -/
theorem C3_counterexample :
    (generate_cold_email (fun _ => "a\n\nb\n\nc\n\nd")
        (fun _ => .ok ⟨[], ""⟩) "job_application" (fun _ => none)).2
      = .error (.keyError "hiring_manager_name")
    ∧ (generate_cold_email (fun _ => "a\n\nb\n\nc\n\nd")
        (fun _ => .ok ⟨[], ""⟩) "job_application" (fun _ => none)).1.length
      = 2 := by
  exact ⟨rfl, rfl⟩

/-- C3 (amended): for every template name other than `"job_application"`
(including unknown names), a failing template lookup or required-field
validation is raised with an empty event trace, i.e. before any network
call; on the `"job_application"` path the webpage fetch and the analysis
completion call precede validation. -/
theorem C3_fail_fast_non_job (llm : String → String)
    (http : String → Except String Page) (template_name : String)
    (kwargs : FieldSet) (hname : template_name ≠ "job_application")
    (hbad : get_template template_name = none
      ∨ ∃ r ∈ get_required_fields template_name, kwargs r = none) :
    (generate_cold_email llm http template_name kwargs).1 = []
    ∧ ∃ e, (generate_cold_email llm http template_name kwargs).2
        = .error e := by
  have hgen : generate_cold_email llm http template_name kwargs
      = customize_template llm template_name kwargs := by
    simp [generate_cold_email, hname]
  rw [hgen]
  rcases hbad with hnone | ⟨r, hrmem, hrnone⟩
  · refine ⟨?_, ?_⟩
    · simp [customize_template, hnone]
    · exact ⟨.valueError ("Template \x27" ++ template_name ++ "\x27 not found"),
        by simp [customize_template, hnone]⟩
  · cases hT : get_template template_name with
    | none =>
      refine ⟨by simp [customize_template, hT],
        ⟨.valueError ("Template \x27" ++ template_name ++ "\x27 not found"),
          by simp [customize_template, hT]⟩⟩
    | some t =>
      have hreq : get_required_fields template_name = t.required_fields := by
        simp [get_required_fields, hT]
      rw [hreq] at hrmem
      obtain ⟨n, hcust, _, _⟩ :=
        customize_template_missing template_name t hT kwargs
          ⟨r, hrmem, hrnone⟩ llm
      rw [hcust]
      exact ⟨rfl, ⟨.keyError n, rfl⟩⟩

/-- C3 (witness): the amended theorem applied to `"sales_pitch"` with the
empty field mapping: the run fails with an empty trace. -/
theorem C3_witness :
    (generate_cold_email (fun _ => "") (fun _ => .error "down")
        "sales_pitch" (fun _ => none)).1 = []
    ∧ ∃ e, (generate_cold_email (fun _ => "") (fun _ => .error "down")
        "sales_pitch" (fun _ => none)).2 = .error e :=
  C3_fail_fast_non_job (fun _ => "") (fun _ => .error "down") "sales_pitch"
    (fun _ => none) (by decide)
    (Or.inr ⟨"recipient_name", by decide, rfl⟩)

/-! ## C4: fragile parsing of the analysis response -/

/-- C4 (counterexample): when the analysis completion returns a text with a
single blank-line-separated section (here `"hello"`), the
`split("\n\n")[2]` extraction raises an `IndexError` and the whole
generation fails, instead of completing with best-effort substrings. -/
theorem C4_counterexample :
    (generate_cold_email (fun _ => "hello") (fun _ => .ok ⟨[], ""⟩)
        "job_application" (fun _ => none)).2 = .error .indexError := rfl

/-- C4 (amended): parsing the analysis response completes exactly when the
response has at least three blank-line-separated sections: with fewer, the
`[2]` indexing raises an `IndexError` that fails the whole generation; with
at least three, the key-achievement and reason-for-interest extractions
succeed and generation proceeds to template substitution with the three
derived fields merged in. -/
theorem C4_parse_fragile (llm : String → String)
    (http : String → Except String Page) (kwargs : FieldSet) (resp : String)
    (hresp : resp = llm (analysis_prompt
      (scrape_website http (pyGet kwargs "job_url" ""))
      (pyGet kwargs "relevant_skills" ""))) :
    ((analysisSections resp).length < 3 →
      (generate_cold_email llm http "job_application" kwargs).2
        = .error .indexError)
    ∧ (3 ≤ (analysisSections resp).length →
      ∃ ka reason, keyAchievements resp = some ka
        ∧ pyNegIdx (analysisSections resp) 1 = some reason
        ∧ (generate_cold_email llm http "job_application" kwargs).2
            = (customize_template llm "job_application"
                (pyUpdate kwargs
                  [("experience_summary", resp), ("key_achievements", ka),
                   ("reason_for_interest", reason)])).2) := by
  subst hresp
  constructor
  · intro hlt
    have hka : keyAchievements (llm (analysis_prompt
        (scrape_website http (pyGet kwargs "job_url" ""))
        (pyGet kwargs "relevant_skills" ""))) = none := by
      rw [keyAchievements, List.getElem?_eq_none (by omega)]
    simp [generate_cold_email, hka]
  · intro hge
    have h2 : 2 < (analysisSections (llm (analysis_prompt
        (scrape_website http (pyGet kwargs "job_url" ""))
        (pyGet kwargs "relevant_skills" "")))).length := by omega
    have hka : keyAchievements (llm (analysis_prompt
        (scrape_website http (pyGet kwargs "job_url" ""))
        (pyGet kwargs "relevant_skills" ""))) = some ("- " ++ pyJoin "\n- "
          ((pySplit ((analysisSections (llm (analysis_prompt
            (scrape_website http (pyGet kwargs "job_url" ""))
            (pyGet kwargs "relevant_skills" "")))).get ⟨2, h2⟩) "\n").drop 1)) := by
      rw [keyAchievements, List.getElem?_eq_getElem h2]
      rfl
    have h1 : (analysisSections (llm (analysis_prompt
        (scrape_website http (pyGet kwargs "job_url" ""))
        (pyGet kwargs "relevant_skills" "")))).length - 1
        < (analysisSections (llm (analysis_prompt
        (scrape_website http (pyGet kwargs "job_url" ""))
        (pyGet kwargs "relevant_skills" "")))).length := by omega
    have hneg : pyNegIdx (analysisSections (llm (analysis_prompt
        (scrape_website http (pyGet kwargs "job_url" ""))
        (pyGet kwargs "relevant_skills" "")))) 1
        = some ((analysisSections (llm (analysis_prompt
        (scrape_website http (pyGet kwargs "job_url" ""))
        (pyGet kwargs "relevant_skills" "")))).get ⟨_, h1⟩) := by
      rw [pyNegIdx, if_pos (by omega), List.getElem?_eq_getElem h1]
      simp [List.get_eq_getElem]
    refine ⟨_, _, hka, hneg, ?_⟩
    simp [generate_cold_email, hka, hneg]

/-- C4 (witness): the amended theorem applied to a one-section response
(`"hello"`, generation fails) and to a three-section response
(`"a\n\nb\n\nc"`, the extraction succeeds). -/
theorem C4_witness :
    ((generate_cold_email (fun _ => "hello") (fun _ => .ok ⟨[], ""⟩)
        "job_application" (fun _ => none)).2 = .error .indexError)
    ∧ ∃ ka reason, keyAchievements "a\n\nb\n\nc" = some ka
        ∧ pyNegIdx (analysisSections "a\n\nb\n\nc") 1 = some reason := by
  constructor
  · exact (C4_parse_fragile (fun _ => "hello") (fun _ => .ok ⟨[], ""⟩)
      (fun _ => none) "hello" rfl).1 (by decide)
  · obtain ⟨ka, reason, h1, h2, _⟩ :=
      (C4_parse_fragile (fun _ => "a\n\nb\n\nc") (fun _ => .ok ⟨[], ""⟩)
        (fun _ => none) "a\n\nb\n\nc" rfl).2 (by decide)
    exact ⟨ka, reason, h1, h2⟩

/-! ## C5: edit on an empty session -/

/-- C5 (counterexample): calling the edit path on a session with zero
turns does not fail with an error — it returns the fixed instruction
message as a normal value — and through the `user`/`bot` handler chain the
pair (request, instruction message) is appended, so the session has one
turn afterwards, not zero. -/
theorem C5_counterexample :
    (chat_function (fun _ => "") "hi" []).2 = .ok please_generate_msg
    ∧ (editStep (fun _ => "") [] "hi").2
        = .ok [(some "hi", please_generate_msg)]
    ∧ [(some "hi", please_generate_msg)].length = 1 :=
  ⟨rfl, rfl, rfl⟩

/-- C5 (amended): calling the edit path on a session with zero turns makes
no model call (empty trace) and returns the fixed instruction message as a
normal, non-error reply; through the UI handler chain the turn
(request, instruction message) is appended to the session rather than the
session staying empty. -/
theorem C5_empty_session_reply (llm : String → String) (message : String) :
    chat_function llm message [] = ([], .ok please_generate_msg)
    ∧ editStep llm [] message
        = ([], .ok [(some message, please_generate_msg)]) :=
  ⟨rfl, rfl⟩

/-! ## C6, C7: the context fetch -/

theorem pyTake_length_le (s : String) (n : Nat) : (pyTake s n).length ≤ n := by
  show (s.data.take n).length ≤ n
  simp

/-- C6 (counterexample): when the fetch fails with an exception whose text
has 5001 characters, the returned context is the untruncated error string
of 5025 characters, so the context fetch does not always return at most
5000 characters. -/
theorem C6_counterexample :
    5000 < (scrape_website
      (fun _ => .error (String.mk (List.replicate 5001 'a'))) "http://x").length := by
  have h : scrape_website
      (fun _ => .error (String.mk (List.replicate 5001 'a'))) "http://x"
      = "Error scraping website: " ++ String.mk (List.replicate 5001 'a') := rfl
  have h5001 : (String.mk (List.replicate 5001 'a')).length = 5001 := by
    show (List.replicate 5001 'a').length = 5001
    exact List.length_replicate 5001 'a'
  have h24 : ("Error scraping website: " : String).length = 24 := by decide
  rw [h, String.length_append, h5001, h24]
  omega

/-- C6 (amended): on every successful fetch and parse the context is the
5000-character truncation of the paragraph text, falling back to the
whole-document text when the concatenated paragraph text is shorter than
1000 characters, and is therefore at most 5000 characters; only the
error-path string of a failed fetch is returned untruncated. -/
theorem C6_success_truncated (http : String → Except String Page)
    (url : String) (page : Page) (hok : http url = .ok page) :
    scrape_website http url
      = pyTake (if (pyJoin " " page.paragraphs).length < 1000
          then page.full_text else pyJoin " " page.paragraphs) 5000
    ∧ (scrape_website http url).length ≤ 5000
    ∧ ((pyJoin " " page.paragraphs).length < 1000 →
        scrape_website http url = pyTake page.full_text 5000) := by
  have ha : scrape_attempt http url
      = .ok (pyTake (if (pyJoin " " page.paragraphs).length < 1000
          then page.full_text else pyJoin " " page.paragraphs) 5000) := by
    rw [scrape_attempt, hok]
    rfl
  have hw : scrape_website http url
      = pyTake (if (pyJoin " " page.paragraphs).length < 1000
          then page.full_text else pyJoin " " page.paragraphs) 5000 := by
    rw [scrape_website, ha]
  refine ⟨hw, hw ▸ pyTake_length_le _ _, fun hlt => ?_⟩
  rw [hw, if_pos hlt]

/-- C6 (witness): the amended theorem applied to a concrete page with 2
characters of paragraph text: the context is the truncated whole-document
text and is at most 5000 characters long. -/
theorem C6_witness :
    scrape_website (fun _ => .ok ⟨["p1"], "full text here"⟩) "u"
      = pyTake "full text here" 5000
    ∧ (scrape_website (fun _ => .ok ⟨["p1"], "full text here"⟩) "u").length
      ≤ 5000 := by
  have c := C6_success_truncated (fun _ => .ok ⟨["p1"], "full text here"⟩)
    "u" ⟨["p1"], "full text here"⟩ rfl
  exact ⟨c.2.2 (by decide), c.2.1⟩

/-- C7: any failure of the fetch-and-parse block is caught and converted
into the marker-prefixed descriptive string, which `scrape_website`
returns as the context (its result type is a plain string: it never
propagates the exception). -/
theorem C7_degraded_context (http : String → Except String Page)
    (url e : String) (herr : scrape_attempt http url = .error e) :
    scrape_website http url = "Error scraping website: " ++ e
    ∧ ContainsStr (scrape_website http url) e := by
  have h : scrape_website http url = "Error scraping website: " ++ e := by
    rw [scrape_website, herr]
  refine ⟨h, ("Error scraping website: " : String).data, [], ?_⟩
  simp [h, String.data_append]

/-- C7 (witness): the theorem applied to a fetch that fails with the
exception text `"boom"`. -/
theorem C7_witness :
    scrape_website (fun _ => .error "boom") "u"
      = "Error scraping website: " ++ "boom" :=
  (C7_degraded_context (fun _ => .error "boom") "u" "boom" rfl).1

/-! ## C8: session shape after N edits -/

theorem editStep_ok {llm : String → String} {history : List ChatTurn}
    {m : String} {h2 : List ChatTurn}
    (h : (editStep llm history m).2 = .ok h2) :
    ∃ reply, h2 = history ++ [(some m, reply)] := by
  rcases hcf : chat_function llm m history with ⟨tr, r⟩
  cases r with
  | ok reply =>
    simp only [editStep, hcf] at h
    exact ⟨reply, (Except.ok.injEq _ _ ▸ h).symm⟩
  | error e =>
    simp only [editStep, hcf] at h
    exact absurd h (by simp)

theorem editMany_ok_shape (llm : String → String) :
    ∀ (msgs : List String) (history s : List ChatTurn),
    editMany llm history msgs = .ok s →
    ∃ replies : List String, replies.length = msgs.length
      ∧ s = history ++ List.zipWith (fun m r => ((some m : Option String), r))
          msgs replies := by
  intro msgs
  induction msgs with
  | nil =>
    intro history s h
    simp only [editMany] at h
    cases h
    exact ⟨[], rfl, by simp⟩
  | cons m ms ih =>
    intro history s h
    simp only [editMany] at h
    cases hstep : (editStep llm history m).2 with
    | error e => rw [hstep] at h; exact absurd h (by simp)
    | ok h2 =>
      rw [hstep] at h
      obtain ⟨reply, hrepl⟩ := editStep_ok hstep
      obtain ⟨replies, hlen, hs⟩ := ih h2 s h
      refine ⟨reply :: replies, by simp [hlen], ?_⟩
      subst hrepl
      simp [hs, List.append_assoc]

theorem zipWith_turn_fst :
    ∀ (msgs replies : List String), replies.length = msgs.length →
    (List.zipWith (fun m r => ((some m : Option String), r)) msgs
      replies).map Prod.fst = msgs.map some := by
  intro msgs
  induction msgs with
  | nil => intro replies _; simp
  | cons m ms ih =>
    intro replies h
    cases replies with
    | nil => simp at h
    | cons r rs =>
      simp only [List.length_cons, Nat.succ.injEq] at h
      simp [ih rs h]

/-- C8: for every session started from a successful generation (one turn
holding the wrapped initial draft with no request) and every sequence of N
edit requests that all succeed, the resulting session has exactly N+1
turns: turn 0 still has no request and the initial message, and turns 1..N
carry the N request texts in call order with nothing reordered or
dropped. -/
theorem C8_session_shape (llm : String → String) (g : String)
    (msgs : List String) (s : List ChatTurn)
    (h : editMany llm [(none, initial_bot_message g)] msgs = .ok s) :
    s.length = msgs.length + 1
    ∧ s[0]? = some (none, initial_bot_message g)
    ∧ s.map Prod.fst = none :: msgs.map some := by
  obtain ⟨replies, hlen, hs⟩ :=
    editMany_ok_shape llm msgs [(none, initial_bot_message g)] s h
  subst hs
  refine ⟨?_, by simp, ?_⟩
  · simp only [List.length_append, List.length_zipWith, hlen,
      Nat.min_self, List.length_cons, List.length_nil]
    omega
  · simp [zipWith_turn_fst msgs replies hlen]

/-- C8 (witness): the theorem applied to a concrete session started from
the generated email `"Hello"` and two successful edits `"a"`, `"b"`. -/
theorem C8_witness :
    editMany (fun _ => "X") [(none, initial_bot_message "Hello")] ["a", "b"]
      = .ok [(none, initial_bot_message "Hello"),
             (some "a", edited_reply "X"), (some "b", edited_reply "X")]
    ∧ [((none : Option String), initial_bot_message "Hello"),
        (some "a", edited_reply "X"), (some "b", edited_reply "X")].length
      = ["a", "b"].length + 1
    ∧ [((none : Option String), initial_bot_message "Hello"),
        (some "a", edited_reply "X"), (some "b", edited_reply "X")].map
          Prod.fst
      = none :: ["a", "b"].map some := by
  have h : editMany (fun _ => "X")
      [(none, initial_bot_message "Hello")] ["a", "b"]
      = .ok [(none, initial_bot_message "Hello"),
             (some "a", edited_reply "X"), (some "b", edited_reply "X")] := rfl
  have c := C8_session_shape (fun _ => "X") "Hello" ["a", "b"]
    [(none, initial_bot_message "Hello"),
     (some "a", edited_reply "X"), (some "b", edited_reply "X")] h
  exact ⟨h, c.1, c.2.2⟩

/-! ## C9: delivery failure is non-fatal -/

/-- C9: when the delivery collaborator fails (every call raises a
transport error), `send_email` returns the boolean `false` as a normal
value instead of raising, the send action reports the failure message, and
the chatbot session — which is not among the outputs of the send button —
is unchanged, with its last turn (the latest draft) still retrievable. -/
theorem C9_delivery_failure (api : ResendPayload → Except String SendResp)
    (from_name from_email to_email subject content : String)
    (name email recipient : String) (chatbot : List ChatTurn) (err : String)
    (hapi : ∀ p, api p = .error err) :
    send_email api from_name from_email to_email subject content = .ok false
    ∧ (chatbot ≠ [] → recipient ≠ "" →
        send_email_action api name email recipient chatbot
          = .ok "Failed to send email. Please try again.")
    ∧ (send_button_click api name email recipient chatbot).2 = chatbot
    ∧ ((send_button_click api name email recipient chatbot).2).getLast?
        = chatbot.getLast? := by
  refine ⟨?_, ?_, rfl, rfl⟩
  · simp [send_email, hapi]
  · intro hcb hrec
    rw [send_email_action, dif_neg hcb, if_neg hrec]
    simp [send_email, hapi]

/-- C9 (witness): the theorem applied to a delivery collaborator that
always fails and a concrete one-turn session. -/
theorem C9_witness :
    send_email (fun _ => .error "transport down") "N" "n@x.com" "r@y.com"
      "S" "C" = .ok false
    ∧ send_email_action (fun _ => .error "transport down") "N" "n@x.com"
        "r@y.com" [((none : Option String), "draft")]
      = .ok "Failed to send email. Please try again."
    ∧ (send_button_click (fun _ => .error "transport down") "N" "n@x.com"
        "r@y.com" [((none : Option String), "draft")]).2
      = [((none : Option String), "draft")] := by
  have c := C9_delivery_failure (fun _ => .error "transport down") "N"
    "n@x.com" "r@y.com" "S" "C" "N" "n@x.com" "r@y.com"
    [((none : Option String), "draft")] "transport down" (fun _ => rfl)
  exact ⟨c.1, c.2.1 (by simp) (by simp), c.2.2.1⟩

/-! ## C10: envelope sender is a fixed constant -/

/-- C10: the delivery request built by `send_email` always uses the fixed
address `onboarding@resend.dev` (with the caller-supplied display name) as
sender, independent of the caller-supplied email address; that address
appears only as the reply-to field and inside the rendered HTML footer
paragraph, never as the envelope sender address. -/
theorem C10_fixed_envelope_sender
    (from_name from_email to_email subject content : String) :
    (send_payload from_name from_email to_email subject content).from_
      = from_name ++ " <onboarding@resend.dev>"
    ∧ (∀ other_email,
        (send_payload from_name other_email to_email subject content).from_
          = (send_payload from_name from_email to_email subject
              content).from_)
    ∧ (send_payload from_name from_email to_email subject content).reply_to
      = from_email
    ∧ (send_payload from_name from_email to_email subject content).html
      = create_html_email content from_name from_email
    ∧ ContainsStr (create_html_email content from_name from_email)
        ("<p>Best regards,<br>" ++ from_name ++ "<br>" ++ from_email
          ++ "</p>") := by
  refine ⟨rfl, fun _ => rfl, rfl, rfl,
    html_head.data ++ content.data ++ html_mid.data, html_tail.data, ?_⟩
  simp [create_html_email, String.data_append]
